import Mathlib

/-!
Shallow embedding of the telecom invoice backend
(`telecom-backend/app`: `models.py`, `crud.py`, `controllers.py`, `main.py`).

The relational store is modelled as an explicit `DB` value (a list of user
rows and a list of invoice rows); SQLAlchemy queries become list operations
(`filter`/`find?`/`mergeSort`), commits become functional updates of the `DB`.
Monetary amounts (`DECIMAL(10,2)`) are `Rat`; dates and timestamps are day /
time ordinals (`Nat`). External collaborators — the bcrypt password verifier
and the JWT issuer — are parameters of the functions that use them.

The payment controller runs two store queries (the ownership/status read and
`crud.pay_factura`); since the database may be modified by a concurrent
request between the two, the embedding gives `process_payment` two snapshots
`dbRead` and `dbPay` (equal in a sequential run).
-/

/-- Invoice status enum, `models.EstadoFactura` (spec names:
PENDING/PAID/EXPIRED/CANCELLED). -/
inductive EstadoFactura where
  | PENDIENTE
  | PAGADO
  | VENCIDO
  | CANCELADO
deriving DecidableEq, Repr

/-- String value of the enum member, as in `factura.estado.value`. -/
def EstadoFactura.value : EstadoFactura → String
  | .PENDIENTE => "PENDIENTE"
  | .PAGADO => "PAGADO"
  | .VENCIDO => "VENCIDO"
  | .CANCELADO => "CANCELADO"

/-- User row, `models.Usuario`. -/
structure Usuario where
  id : Nat
  username : String
  password_hash : String
  email : Option String
  nombre_completo : Option String
  created_at : Option Nat
  updated_at : Option Nat
deriving DecidableEq, Repr

/-- Invoice row, `models.Factura`. -/
structure Factura where
  id : Nat
  usuario_id : Nat
  monto : Rat
  fecha_emision : Nat
  fecha_vencimiento : Option Nat
  estado : EstadoFactura
  descripcion : Option String
  numero_factura : Option String
  created_at : Option Nat
  updated_at : Option Nat
deriving DecidableEq, Repr

/-- The relational store: the `usuarios` and `facturas` tables. -/
structure DB where
  usuarios : List Usuario
  facturas : List Factura
deriving DecidableEq, Repr

/-- A FastAPI `HTTPException`: status code and detail message. -/
structure HTTPException where
  statusCode : Nat
  detail : String
deriving DecidableEq, Repr

/-- JWT login response, `schemas.Token`. -/
structure Token where
  access_token : String
  token_type : String
  expires_in : Nat
deriving DecidableEq, Repr

/-- Statistics response, `schemas.EstadisticasUsuario` (the second,
Decimal-typed definition in `schemas.py`, which shadows the string-typed
one and is the type the controller returns). -/
structure EstadisticasUsuario where
  total_facturas : Nat
  facturas_pendientes : Nat
  facturas_pagadas : Nat
  monto_total_pendiente : Rat
  monto_total_pagado : Rat
deriving DecidableEq, Repr

/-- Statistics dict built by `crud.get_user_statistics`; the source applies
Python `str` to the two sums before putting them in the dict, so the monto
fields here are rendered through the `render` parameter standing for `str`. -/
structure EstadisticasDict where
  total_facturas : Nat
  facturas_pendientes : Nat
  facturas_pagadas : Nat
  monto_total_pendiente : String
  monto_total_pagado : String
deriving DecidableEq, Repr

namespace crud

/-- `crud.get_user`: first user row whose `username` matches. -/
def get_user (db : DB) (username : String) : Option Usuario :=
  db.usuarios.find? (fun u => u.username == username)

/-- `crud.get_user_by_id`: first user row whose `id` matches. -/
def get_user_by_id (db : DB) (userId : Nat) : Option Usuario :=
  db.usuarios.find? (fun u => u.id == userId)

/-- `crud.get_factura_by_id`: first invoice row whose `id` matches. -/
def get_factura_by_id (db : DB) (facturaId : Nat) : Option Factura :=
  db.facturas.find? (fun f => f.id == facturaId)

/-- `crud.list_facturas`: the user's invoices ordered by `fecha_emision`
descending. -/
def list_facturas (db : DB) (userId : Nat) : List Factura :=
  (db.facturas.filter (fun f => f.usuario_id == userId)).mergeSort
    (fun a b => b.fecha_emision ≤ a.fecha_emision)

/-- `crud.pay_factura`: read the row by id; if it exists and is `PENDIENTE`,
set it to `PAGADO` and commit (the DB touches `updated_at` on update); return
the row as re-read after the commit, or the unchanged row, or `none` when the
id is absent.  Returns the resulting store alongside. -/
def pay_factura (db : DB) (facturaId : Nat) (now : Nat) :
    Option Factura × DB :=
  match get_factura_by_id db facturaId with
  | none => (none, db)
  | some f =>
    if f.estado = EstadoFactura.PENDIENTE then
      let f2 : Factura :=
        { f with estado := EstadoFactura.PAGADO, updated_at := some now }
      (some f2,
        { db with
          facturas := db.facturas.map
            (fun g => if g.id == facturaId then f2 else g) })
    else (some f, db)

/-- `crud.get_facturas_pendientes`: pending invoices of the user, ordered by
`fecha_vencimiento` ascending (`NULL` due dates sort first, value 0). -/
def get_facturas_pendientes (db : DB) (userId : Nat) : List Factura :=
  (((db.facturas.filter (fun f => f.usuario_id == userId)).filter
      (fun f => f.estado == EstadoFactura.PENDIENTE))).mergeSort
    (fun a b => a.fecha_vencimiento.getD 0 ≤ b.fecha_vencimiento.getD 0)

/-- `crud.get_facturas_pagadas`: paid invoices of the user, ordered by
`fecha_emision` descending. -/
def get_facturas_pagadas (db : DB) (userId : Nat) : List Factura :=
  (((db.facturas.filter (fun f => f.usuario_id == userId)).filter
      (fun f => f.estado == EstadoFactura.PAGADO))).mergeSort
    (fun a b => b.fecha_emision ≤ a.fecha_emision)

/-- SQL `SUM` aggregate: `NULL` (i.e. `none`) over zero rows, otherwise the
sum of the column. -/
def sqlSum (l : List Rat) : Option Rat :=
  if l.isEmpty then none else some l.sum

/-- Python `x or 0` applied to the scalar of a `SUM` query: `0` when the
scalar is `NULL` or the falsy `Decimal` zero, otherwise the scalar. -/
def orZero : Option Rat → Rat
  | none => 0
  | some v => if v = 0 then 0 else v

/-- `crud.get_user_statistics`: counts via filtered `COUNT` queries, sums via
`SUM ... or 0` rendered with Python `str` (the `render` parameter). -/
def get_user_statistics (render : Rat → String) (db : DB) (userId : Nat) :
    EstadisticasDict :=
  let total_facturas :=
    (db.facturas.filter (fun f => f.usuario_id == userId)).length
  let facturas_pendientes :=
    ((db.facturas.filter (fun f => f.usuario_id == userId)).filter
      (fun f => f.estado == EstadoFactura.PENDIENTE)).length
  let facturas_pagadas :=
    ((db.facturas.filter (fun f => f.usuario_id == userId)).filter
      (fun f => f.estado == EstadoFactura.PAGADO)).length
  let monto_pendiente :=
    orZero (sqlSum (((db.facturas.filter (fun f => f.usuario_id == userId)).filter
      (fun f => f.estado == EstadoFactura.PENDIENTE)).map (fun f => f.monto)))
  let monto_pagado :=
    orZero (sqlSum (((db.facturas.filter (fun f => f.usuario_id == userId)).filter
      (fun f => f.estado == EstadoFactura.PAGADO)).map (fun f => f.monto)))
  { total_facturas := total_facturas
    facturas_pendientes := facturas_pendientes
    facturas_pagadas := facturas_pagadas
    monto_total_pendiente := render monto_pendiente
    monto_total_pagado := render monto_pagado }

end crud

namespace AuthController

/-- `AuthController.authenticate_user`: look the user up by username; `None`
when absent; verify the password against the stored hash (the `verify`
parameter stands for `crud.verify_pw`, i.e. bcrypt); `None` on mismatch. -/
def authenticate_user (verify : String → String → Bool) (db : DB)
    (username password : String) : Option Usuario :=
  match crud.get_user db username with
  | none => none
  | some user => if verify password user.password_hash then some user else none

end AuthController

namespace FacturaController

/-- `FacturaController.get_factura_by_id`: 404 when the id is absent, 403 when
the requester is not the owner, otherwise the invoice. -/
def get_factura_by_id (db : DB) (facturaId userId : Nat) :
    Except HTTPException Factura :=
  match crud.get_factura_by_id db facturaId with
  | none => Except.error ⟨404, "Factura no encontrada"⟩
  | some factura =>
    if factura.usuario_id ≠ userId then
      Except.error ⟨403, "No tienes permisos para acceder a esta factura"⟩
    else Except.ok factura

/-- `FacturaController.process_payment`.  Reads and checks against `dbRead`;
the overdue-due-date branch of the source is `pass` (no effect); the payment
write goes against `dbPay`, the store as it stands when `crud.pay_factura`
runs (equal to `dbRead` in a sequential run).  The 500 raised inside the
`try` block when `pay_factura` returns falsy is caught by the bare
`except Exception` and re-raised with the detail
"Error interno al procesar el pago". -/
def process_payment (dbRead dbPay : DB) (facturaId userId now : Nat) :
    Except HTTPException Factura × DB :=
  match get_factura_by_id dbRead facturaId userId with
  | Except.error e => (Except.error e, dbPay)
  | Except.ok factura =>
    if factura.estado ≠ EstadoFactura.PENDIENTE then
      if factura.estado = EstadoFactura.PAGADO then
        (Except.error ⟨400, "La factura ya está pagada"⟩, dbPay)
      else
        (Except.error ⟨400,
          "No se puede pagar una factura en estado " ++ factura.estado.value⟩,
          dbPay)
    else
      match crud.pay_factura dbPay facturaId now with
      | (none, db2) =>
        (Except.error ⟨500, "Error interno al procesar el pago"⟩, db2)
      | (some factura_pagada, db2) => (Except.ok factura_pagada, db2)

/-- `FacturaController.get_user_statistics`: in-memory aggregation over the
user's invoice list. -/
def get_user_statistics (db : DB) (userId : Nat) : EstadisticasUsuario :=
  let facturas := crud.list_facturas db userId
  { total_facturas := facturas.length
    facturas_pendientes :=
      (facturas.filter (fun f => f.estado == EstadoFactura.PENDIENTE)).length
    facturas_pagadas :=
      (facturas.filter (fun f => f.estado == EstadoFactura.PAGADO)).length
    monto_total_pendiente :=
      ((facturas.filter (fun f => f.estado == EstadoFactura.PENDIENTE)).map
        (fun f => f.monto)).sum
    monto_total_pagado :=
      ((facturas.filter (fun f => f.estado == EstadoFactura.PAGADO)).map
        (fun f => f.monto)).sum }

end FacturaController

namespace ValidationController

/-- `ValidationController.validate_factura_payment_eligibility`: must be
`PENDIENTE` and have `monto > 0`. -/
def validate_factura_payment_eligibility (factura : Factura) : Bool :=
  if factura.estado ≠ EstadoFactura.PENDIENTE then false
  else if factura.monto ≤ 0 then false
  else true

/-- `ValidationController.validate_user_can_access_factura`. -/
def validate_user_can_access_factura (userId : Nat) (factura : Factura) :
    Bool :=
  factura.usuario_id == userId

end ValidationController

/-- Autoincrement for the `usuarios` primary key. -/
def nextUserId (db : DB) : Nat :=
  (db.usuarios.map (fun u => u.id)).foldr max 0 + 1

/-- Autoincrement for the `facturas` primary key. -/
def nextFacturaId (db : DB) : Nat :=
  (db.facturas.map (fun f => f.id)).foldr max 0 + 1

namespace crud

/-- `crud.create_user`: hash the password (the `hash` parameter stands for
bcrypt) and insert the row; `created_at` is the server default `now()`. -/
def create_user (hash : String → String) (db : DB) (username password : String)
    (email nombre_completo : Option String) (now : Nat) : Usuario × DB :=
  let u : Usuario :=
    { id := nextUserId db
      username := username
      password_hash := hash password
      email := email
      nombre_completo := nombre_completo
      created_at := some now
      updated_at := none }
  (u, { db with usuarios := db.usuarios ++ [u] })

end crud

namespace AuthController

/-- `AuthController.register_user`: 409 when the username exists, otherwise
create the user. -/
def register_user (hash : String → String) (db : DB)
    (username password : String) (email nombre_completo : Option String)
    (now : Nat) : Except HTTPException Usuario × DB :=
  match crud.get_user db username with
  | some _ => (Except.error ⟨409, "El username ya existe"⟩, db)
  | none =>
    let r := crud.create_user hash db username password email nombre_completo now
    (Except.ok r.1, r.2)

end AuthController

namespace main

/-- `main.login`: authenticate; 401 "Credenciales incorrectas" on failure,
otherwise issue a JWT (the `mkToken` parameter stands for
`create_access_token`) in a `Token` payload. -/
def login (verify : String → String → Bool) (mkToken : String → String)
    (db : DB) (username password : String) : Except HTTPException Token :=
  match AuthController.authenticate_user verify db username password with
  | none => Except.error ⟨401, "Credenciales incorrectas"⟩
  | some user =>
    Except.ok { access_token := mkToken user.username
                token_type := "bearer"
                expires_in := 86400 }

/-- `main.crear_factura_prueba` / `main.crear_factura_personalizada`: both
insert a fresh invoice with `estado = PENDIENTE`; the amount, number,
description and due date differ only in where they come from (random vs.
request body), so they are parameters here. -/
def crear_factura (db : DB) (userId : Nat) (monto : Rat)
    (numero_factura descripcion : Option String) (emision : Nat)
    (vencimiento : Option Nat) (now : Nat) : Factura × DB :=
  let f : Factura :=
    { id := nextFacturaId db
      usuario_id := userId
      monto := monto
      fecha_emision := emision
      fecha_vencimiento := vencimiento
      estado := EstadoFactura.PENDIENTE
      descripcion := descripcion
      numero_factura := numero_factura
      created_at := some now
      updated_at := none }
  (f, { db with facturas := db.facturas ++ [f] })

end main

/-- The system's operations (the endpoints of `main.py`), with the data each
one carries; external collaborators (bcrypt, JWT) ride along as function
parameters of the constructor that uses them. -/
inductive Op where
  | register (hash : String → String) (username password : String)
      (email nombre_completo : Option String) (now : Nat)
  | loginOp (verify : String → String → Bool) (mkToken : String → String)
      (username password : String)
  | listFacturas (userId : Nat)
  | listPendientes (userId : Nat)
  | listPagadas (userId : Nat)
  | estadisticas (userId : Nat)
  | crearFactura (userId : Nat) (monto : Rat)
      (numero_factura descripcion : Option String) (emision : Nat)
      (vencimiento : Option Nat) (now : Nat)
  | pagarFactura (facturaId userId now : Nat)

/-- Effect of each operation on the store (read-only endpoints leave it
unchanged; `pagarFactura` is the sequential run of the payment endpoint). -/
def applyOp : Op → DB → DB
  | Op.register hash username password email nombre now, db =>
    (AuthController.register_user hash db username password email nombre now).2
  | Op.loginOp _ _ _ _, db => db
  | Op.listFacturas _, db => db
  | Op.listPendientes _, db => db
  | Op.listPagadas _, db => db
  | Op.estadisticas _, db => db
  | Op.crearFactura userId monto numero descripcion emision vencimiento now,
      db =>
    (main.crear_factura db userId monto numero descripcion emision
      vencimiento now).2
  | Op.pagarFactura facturaId userId now, db =>
    (FacturaController.process_payment db db facturaId userId now).2

/-! Sample rows and stores used by the concrete witnesses below. -/

/-- A pending invoice, overdue (due day 5, used with payment times past it). -/
def facPend : Factura :=
  { id := 1, usuario_id := 1, monto := 100, fecha_emision := 2
    fecha_vencimiento := some 5, estado := EstadoFactura.PENDIENTE
    descripcion := none, numero_factura := some "FAC-1000"
    created_at := some 1, updated_at := none }

/-- An invoice already paid. -/
def facPagado : Factura :=
  { id := 2, usuario_id := 1, monto := 50, fecha_emision := 8
    fecha_vencimiento := some 20, estado := EstadoFactura.PAGADO
    descripcion := none, numero_factura := some "FAC-1001"
    created_at := some 1, updated_at := some 2 }

/-- An invoice in the `VENCIDO` state. -/
def facVenc : Factura :=
  { id := 3, usuario_id := 1, monto := 30, fecha_emision := 2
    fecha_vencimiento := some 4, estado := EstadoFactura.VENCIDO
    descripcion := none, numero_factura := some "FAC-1002"
    created_at := some 1, updated_at := none }

/-- A store with one user owning the three invoices above. -/
def dbSample : DB :=
  { usuarios := [{ id := 1, username := "alice", password_hash := "h1"
                   email := none, nombre_completo := none
                   created_at := some 0, updated_at := none }]
    facturas := [facPend, facPagado, facVenc] }

/-- `facPend` as left by a payment committed at time 7. -/
def facPaid7 : Factura :=
  { facPend with estado := EstadoFactura.PAGADO, updated_at := some 7 }

/-- `dbSample` as seen by a payment request after a concurrent request
already paid invoice 1 at time 7 (the state `process_payment` leaves behind
when user 1 pays invoice 1 of `dbSample`). -/
def dbConcurrent : DB :=
  { dbSample with facturas := [facPaid7, facPagado, facVenc] }

/-! Helper lemmas. -/

/-- A successful `find?` splits the list at the found element, with the
predicate false on the prefix. -/
theorem find?_split {α : Type} {p : α → Bool} {l : List α} {a : α}
    (h : l.find? p = some a) :
    p a = true ∧ ∃ l1 l2, l = l1 ++ a :: l2 ∧ ∀ b ∈ l1, p b = false := by
  induction l with
  | nil => simp at h
  | cons x xs ih =>
    by_cases hx : p x = true
    · rw [List.find?_cons_of_pos _ hx] at h
      cases h
      exact ⟨hx, ⟨[], xs, rfl, by simp⟩⟩
    · rw [List.find?_cons_of_neg _ hx] at h
      obtain ⟨hpa, l1, l2, rfl, hl1⟩ := ih h
      refine ⟨hpa, ⟨x :: l1, l2, rfl, ?_⟩⟩
      intro b hb
      rcases List.mem_cons.mp hb with rfl | hb
      · exact Bool.not_eq_true _ ▸ eq_false_of_ne_true hx
      · exact hl1 b hb

/-- Mapping a function that fixes every element of a list is the identity. -/
theorem map_eq_self_of_forall {α : Type} {g : α → α} {l : List α}
    (h : ∀ b ∈ l, g b = b) : l.map g = l := by
  induction l with
  | nil => rfl
  | cons x xs ih =>
    simp only [List.map_cons, h x (List.mem_cons_self x xs)]
    rw [ih fun b hb => h b (List.mem_cons_of_mem x hb)]

/-- C4: the payment-eligibility predicate returns true iff the invoice is
`PENDIENTE` with strictly positive amount; in particular it is false for
every `PAGADO`, `VENCIDO` or `CANCELADO` invoice and for a `PENDIENTE`
invoice with non-positive amount. -/
theorem C4_payment_eligibility_iff (f : Factura) :
    ValidationController.validate_factura_payment_eligibility f = true ↔
      (f.estado = EstadoFactura.PENDIENTE ∧ 0 < f.monto) := by
  unfold ValidationController.validate_factura_payment_eligibility
  constructor
  · intro h
    by_cases h1 : f.estado = EstadoFactura.PENDIENTE
    · refine ⟨h1, ?_⟩
      by_cases h2 : f.monto ≤ 0
      · simp [h1, h2] at h
      · exact not_le.mp h2
    · simp [h1] at h
  · rintro ⟨h1, h2⟩
    simp [h1, not_le.mpr h2]

/-- C1: the payment operation's failure checks fire in this order: missing
invoice id is 404 `NotFound`; an existing invoice owned by another user is
403 `Forbidden` regardless of status; an owned invoice already `PAGADO` is
400 `AlreadyPaid`; an owned invoice in any other non-`PENDIENTE` state is
400 `InvalidState` with the current status named in the message. -/
theorem C1_payment_error_order (dbRead dbPay : DB) (i u now : Nat) :
    (crud.get_factura_by_id dbRead i = none →
      (FacturaController.process_payment dbRead dbPay i u now).1 =
        Except.error ⟨404, "Factura no encontrada"⟩) ∧
    (∀ f, crud.get_factura_by_id dbRead i = some f → f.usuario_id ≠ u →
      (FacturaController.process_payment dbRead dbPay i u now).1 =
        Except.error ⟨403, "No tienes permisos para acceder a esta factura"⟩) ∧
    (∀ f, crud.get_factura_by_id dbRead i = some f → f.usuario_id = u →
      f.estado = EstadoFactura.PAGADO →
      (FacturaController.process_payment dbRead dbPay i u now).1 =
        Except.error ⟨400, "La factura ya está pagada"⟩) ∧
    (∀ f, crud.get_factura_by_id dbRead i = some f → f.usuario_id = u →
      f.estado ≠ EstadoFactura.PENDIENTE → f.estado ≠ EstadoFactura.PAGADO →
      (FacturaController.process_payment dbRead dbPay i u now).1 =
        Except.error ⟨400,
          "No se puede pagar una factura en estado " ++ f.estado.value⟩) := by
  refine ⟨?_, ?_, ?_, ?_⟩
  · intro h
    unfold FacturaController.process_payment FacturaController.get_factura_by_id
    rw [h]
  · intro f hf hu
    unfold FacturaController.process_payment FacturaController.get_factura_by_id
    rw [hf]
    simp [hu]
  · intro f hf hu hpag
    unfold FacturaController.process_payment FacturaController.get_factura_by_id
    rw [hf]
    simp [hu, hpag]
  · intro f hf hu hnp hnpag
    unfold FacturaController.process_payment FacturaController.get_factura_by_id
    rw [hf]
    simp [hu, hnp, hnpag]

/-- Witness for C1: the four error branches observed on `dbSample` (missing
id 99, invoice 1 requested by user 2, paid invoice 2, `VENCIDO` invoice 3). -/
theorem C1_payment_error_order_witness :
    (FacturaController.process_payment dbSample dbSample 99 1 0).1 =
      Except.error ⟨404, "Factura no encontrada"⟩ ∧
    (FacturaController.process_payment dbSample dbSample 1 2 0).1 =
      Except.error ⟨403, "No tienes permisos para acceder a esta factura"⟩ ∧
    (FacturaController.process_payment dbSample dbSample 2 1 0).1 =
      Except.error ⟨400, "La factura ya está pagada"⟩ ∧
    (FacturaController.process_payment dbSample dbSample 3 1 0).1 =
      Except.error ⟨400, "No se puede pagar una factura en estado VENCIDO"⟩ := by
  refine ⟨(C1_payment_error_order dbSample dbSample 99 1 0).1 (by decide),
    (C1_payment_error_order dbSample dbSample 1 2 0).2.1 facPend (by decide)
      (by decide),
    (C1_payment_error_order dbSample dbSample 2 1 0).2.2.1 facPagado (by decide)
      (by decide) (by decide), ?_⟩
  have h := (C1_payment_error_order dbSample dbSample 3 1 0).2.2.2 facVenc
    (by decide) (by decide) (by decide) (by decide)
  simpa [facVenc, EstadoFactura.value] using h

/-- Prepending elements on which the predicate is false does not change
`find?`. -/
theorem find?_append_left_none {α : Type} {p : α → Bool} {l1 l : List α}
    (h : ∀ b ∈ l1, p b = false) : (l1 ++ l).find? p = l.find? p := by
  induction l1 with
  | nil => rfl
  | cons x xs ih =>
    have hx := h x (List.mem_cons_self x xs)
    rw [List.cons_append, List.find?_cons_of_neg _ (by simp [hx])]
    exact ih fun b hb => h b (List.mem_cons_of_mem x hb)

/-- C2: paying a `PENDIENTE` invoice as its owner succeeds, returns the
invoice with status `PAGADO`, and persists the change in the store; no
hypothesis constrains the due date, so an overdue invoice is payable exactly
like a non-overdue one (no rejection, and the amount is untouched). -/
theorem C2_pay_pending_owner_succeeds (db : DB) (i u now : Nat) (f : Factura)
    (hf : crud.get_factura_by_id db i = some f)
    (howner : f.usuario_id = u)
    (hpend : f.estado = EstadoFactura.PENDIENTE) :
    (FacturaController.process_payment db db i u now).1 =
      Except.ok
        { f with estado := EstadoFactura.PAGADO, updated_at := some now } ∧
    crud.get_factura_by_id
        (FacturaController.process_payment db db i u now).2 i =
      some { f with estado := EstadoFactura.PAGADO, updated_at := some now } := by
  obtain ⟨hp, l1, l2, hsplit, hpre⟩ := find?_split hf
  have hid : f.id = i := by simpa using hp
  have hctrl : FacturaController.get_factura_by_id db i u = Except.ok f := by
    unfold FacturaController.get_factura_by_id
    rw [hf]
    simp [howner]
  have hpay : crud.pay_factura db i now =
      (some { f with estado := EstadoFactura.PAGADO, updated_at := some now },
        { db with facturas := db.facturas.map (fun g =>
            if g.id == i then
              { f with estado := EstadoFactura.PAGADO, updated_at := some now }
            else g) }) := by
    unfold crud.pay_factura
    rw [hf]
    simp [hpend]
  have hres : FacturaController.process_payment db db i u now =
      (Except.ok
          { f with estado := EstadoFactura.PAGADO, updated_at := some now },
        { db with facturas := db.facturas.map (fun g =>
            if g.id == i then
              { f with estado := EstadoFactura.PAGADO, updated_at := some now }
            else g) }) := by
    unfold FacturaController.process_payment
    rw [hctrl]
    simp only [hpend, ne_eq, not_true_eq_false, if_false, hpay]
  rw [hres]
  refine ⟨rfl, ?_⟩
  unfold crud.get_factura_by_id
  simp only
  rw [hsplit, List.map_append, List.map_cons]
  have hl1 : l1.map (fun g =>
      if g.id == i then
        { f with estado := EstadoFactura.PAGADO, updated_at := some now }
      else g) = l1 :=
    map_eq_self_of_forall fun b hb => by simp [hpre b hb]
  have hupdf : (if f.id == i then
      { f with estado := EstadoFactura.PAGADO, updated_at := some now }
    else f) =
      { f with estado := EstadoFactura.PAGADO, updated_at := some now } := by
    simp [hp]
  rw [hl1, hupdf, find?_append_left_none hpre,
    List.find?_cons_of_pos _ (by simp [hid])]

/-- Witness for C2: user 1 pays the overdue pending invoice 1 of `dbSample`
(due day 5, paid at time 7) and gets the `PAGADO` invoice back, persisted. -/
theorem C2_pay_pending_owner_succeeds_witness :
    (FacturaController.process_payment dbSample dbSample 1 1 7).1 =
      Except.ok facPaid7 ∧
    crud.get_factura_by_id
        (FacturaController.process_payment dbSample dbSample 1 1 7).2 1 =
      some facPaid7 :=
  C2_pay_pending_owner_succeeds dbSample 1 1 7 facPend (by decide) (by decide)
    (by decide)

/-- C5 (amended): when the ownership and `PENDIENTE` checks pass against the
read snapshot but the store-level payment finds no row with that id at all
(the invoice vanished), the operation fails with the 500 internal error. -/
theorem C5_internal_error_on_vanished (dbRead dbPay : DB) (i u now : Nat)
    (f : Factura)
    (hf : crud.get_factura_by_id dbRead i = some f)
    (howner : f.usuario_id = u)
    (hpend : f.estado = EstadoFactura.PENDIENTE)
    (hgone : crud.get_factura_by_id dbPay i = none) :
    (FacturaController.process_payment dbRead dbPay i u now).1 =
      Except.error ⟨500, "Error interno al procesar el pago"⟩ := by
  have hctrl : FacturaController.get_factura_by_id dbRead i u = Except.ok f := by
    unfold FacturaController.get_factura_by_id
    rw [hf]
    simp [howner]
  have hpay : crud.pay_factura dbPay i now = (none, dbPay) := by
    unfold crud.pay_factura
    rw [hgone]
  unfold FacturaController.process_payment
  rw [hctrl]
  simp only [hpend, ne_eq, not_true_eq_false, if_false, hpay]

/-- Witness for C5's amended theorem: invoice 1 passed the checks against
`dbSample` but is absent from the empty store the payment runs against. -/
theorem C5_internal_error_on_vanished_witness :
    (FacturaController.process_payment dbSample
        { usuarios := [], facturas := [] } 1 1 7).1 =
      Except.error ⟨500, "Error interno al procesar el pago"⟩ :=
  C5_internal_error_on_vanished dbSample { usuarios := [], facturas := [] }
    1 1 7 facPend (by decide) (by decide) (by decide) (by decide)

/-- Counterexample for C5 as stated: invoice 1 passed the ownership and
`PENDIENTE` checks against the read snapshot `dbSample`, but a concurrent
request already paid it, so the store-level payment changes no row and
returns the invoice unchanged (`crud.pay_factura` hands back `dbConcurrent`
as-is); the operation then reports success with the stale invoice instead of
failing with the 500 internal error. -/
theorem C5_stale_success_counterexample :
    crud.pay_factura dbConcurrent 1 8 = (some facPaid7, dbConcurrent) ∧
    (FacturaController.process_payment dbSample dbConcurrent 1 1 8).1 =
      Except.ok facPaid7 := by
  refine ⟨by decide, by rfl⟩

/-- C9 at the racing interleaving: two payment requests for the pending
invoice 1, both of which read `dbSample` before either commit; request A pays
first, request B's `crud.pay_factura` then runs against A's resulting store —
and both requests report success, returning the `PAGADO` invoice. -/
theorem C9_race_both_report_success :
    (FacturaController.process_payment dbSample dbSample 1 1 7).1 =
      Except.ok facPaid7 ∧
    (FacturaController.process_payment dbSample
        (FacturaController.process_payment dbSample dbSample 1 1 7).2 1 1 8).1 =
      Except.ok facPaid7 := by
  refine ⟨by rfl, by rfl⟩

/-- C8: the caller-visible result of a failed login is the same value —
`401 Unauthorized` with detail "Credenciales incorrectas" — whether the
username is absent from the credential store or present with a password that
fails verification, so the two cases cannot be told apart from the result. -/
theorem C8_auth_failure_indistinguishable (verify : String → String → Bool)
    (mkToken : String → String) (db1 db2 : DB) (u1 p1 u2 p2 : String)
    (user : Usuario)
    (h1 : crud.get_user db1 u1 = none)
    (h2 : crud.get_user db2 u2 = some user)
    (h3 : verify p2 user.password_hash = false) :
    main.login verify mkToken db1 u1 p1 =
      main.login verify mkToken db2 u2 p2 ∧
    main.login verify mkToken db1 u1 p1 =
      Except.error ⟨401, "Credenciales incorrectas"⟩ := by
  have ha1 : AuthController.authenticate_user verify db1 u1 p1 = none := by
    unfold AuthController.authenticate_user
    rw [h1]
  have ha2 : AuthController.authenticate_user verify db2 u2 p2 = none := by
    unfold AuthController.authenticate_user
    rw [h2]
    simp [h3]
  unfold main.login
  rw [ha1, ha2]
  exact ⟨rfl, rfl⟩

/-- Witness for C8: username "bob" is absent from `dbSample`, while "alice"
exists but supplies a password whose hash check (equality with the stored
hash, standing for bcrypt) fails; both logins return the same 401 error. -/
theorem C8_auth_failure_indistinguishable_witness :
    main.login (fun p h => p == h) (fun u => u) dbSample "bob" "x" =
      main.login (fun p h => p == h) (fun u => u) dbSample "alice" "wrong" ∧
    main.login (fun p h => p == h) (fun u => u) dbSample "bob" "x" =
      Except.error ⟨401, "Credenciales incorrectas"⟩ :=
  C8_auth_failure_indistinguishable (fun p h => p == h) (fun u => u)
    dbSample dbSample "bob" "x" "alice" "wrong"
    { id := 1, username := "alice", password_hash := "h1", email := none
      nombre_completo := none, created_at := some 0, updated_at := none }
    (by decide) (by decide) (by decide)

/-- C10: on a store whose invoice ids are distinct (the primary key), paying
an existing `PENDIENTE` invoice returns that invoice with only `estado` and
the store-managed `updated_at` changed (all other fields are carried over by
the record update), leaves every other invoice exactly in place, and leaves
the `usuarios` table untouched. -/
theorem C10_pay_factura_frame (db : DB) (i now : Nat) (f : Factura)
    (hf : crud.get_factura_by_id db i = some f)
    (hpend : f.estado = EstadoFactura.PENDIENTE)
    (hnodup : (db.facturas.map Factura.id).Nodup) :
    (crud.pay_factura db i now).1 =
      some { f with estado := EstadoFactura.PAGADO, updated_at := some now } ∧
    (crud.pay_factura db i now).2.usuarios = db.usuarios ∧
    ∃ l1 l2, db.facturas = l1 ++ f :: l2 ∧
      (crud.pay_factura db i now).2.facturas =
        l1 ++
          { f with estado := EstadoFactura.PAGADO, updated_at := some now } ::
            l2 := by
  obtain ⟨hp, l1, l2, hsplit, hpre⟩ := find?_split hf
  have hid : f.id = i := by simpa using hp
  have hpay : crud.pay_factura db i now =
      (some { f with estado := EstadoFactura.PAGADO, updated_at := some now },
        { db with facturas := db.facturas.map (fun g =>
            if g.id == i then
              { f with estado := EstadoFactura.PAGADO, updated_at := some now }
            else g) }) := by
    unfold crud.pay_factura
    rw [hf]
    simp [hpend]
  rw [hsplit, List.map_append, List.map_cons] at hnodup
  have hnotin : f.id ∉ l2.map Factura.id :=
    (List.nodup_cons.mp (List.nodup_append.mp hnodup).2.1).1
  have hl2 : ∀ b ∈ l2, (b.id == i) = false := by
    intro b hb
    have hbne : b.id ≠ f.id := fun h =>
      hnotin (h ▸ List.mem_map_of_mem Factura.id hb)
    simp [hid ▸ hbne]
  rw [hpay]
  refine ⟨rfl, rfl, l1, l2, hsplit, ?_⟩
  show (db.facturas.map _) = _
  rw [hsplit, List.map_append, List.map_cons,
    map_eq_self_of_forall (fun b hb => by simp [hpre b hb]),
    map_eq_self_of_forall (fun b hb => by simp [hl2 b hb]),
    if_pos hp]

/-- Witness for C10: paying invoice 1 of `dbSample` (distinct ids 1, 2, 3)
splits the table around it, with invoices 2 and 3 and the user table
untouched. -/
theorem C10_pay_factura_frame_witness :
    (crud.pay_factura dbSample 1 7).1 = some facPaid7 ∧
    (crud.pay_factura dbSample 1 7).2.usuarios = dbSample.usuarios ∧
    ∃ l1 l2, dbSample.facturas = l1 ++ facPend :: l2 ∧
      (crud.pay_factura dbSample 1 7).2.facturas = l1 ++ facPaid7 :: l2 :=
  C10_pay_factura_frame dbSample 1 7 facPend (by decide) (by decide)
    (by decide)

/-- Every invoice falls in exactly one status bucket, so the buckets'
lengths sum to the list's length. -/
theorem length_partition_estado (l : List Factura) :
    l.length =
      (l.filter (fun f => f.estado == EstadoFactura.PENDIENTE)).length +
      (l.filter (fun f => f.estado == EstadoFactura.PAGADO)).length +
      (l.filter (fun f => f.estado == EstadoFactura.VENCIDO)).length +
      (l.filter (fun f => f.estado == EstadoFactura.CANCELADO)).length := by
  induction l with
  | nil => rfl
  | cons x xs ih =>
    cases hx : x.estado <;> simp [List.filter_cons, hx, ih] <;> omega

/-- The controller's invoice list is a permutation of the owner-filtered
table (sorting by issue date reorders only). -/
theorem list_facturas_perm (db : DB) (u : Nat) :
    (crud.list_facturas db u).Perm
      (db.facturas.filter (fun f => f.usuario_id == u)) :=
  List.mergeSort_perm _ _

/-- C6: the statistics computed for user `u` are the length of the
owner-filtered table, the counts of its `PENDIENTE` and `PAGADO` buckets,
and the sums of those buckets' amounts (an empty bucket summing to `0`);
`VENCIDO` and `CANCELADO` invoices enter only the total, which equals the
four buckets' counts combined. -/
theorem C6_user_statistics (db : DB) (u : Nat) :
    (FacturaController.get_user_statistics db u).total_facturas =
      (db.facturas.filter (fun f => f.usuario_id == u)).length ∧
    (FacturaController.get_user_statistics db u).facturas_pendientes =
      ((db.facturas.filter (fun f => f.usuario_id == u)).filter
        (fun f => f.estado == EstadoFactura.PENDIENTE)).length ∧
    (FacturaController.get_user_statistics db u).facturas_pagadas =
      ((db.facturas.filter (fun f => f.usuario_id == u)).filter
        (fun f => f.estado == EstadoFactura.PAGADO)).length ∧
    (FacturaController.get_user_statistics db u).monto_total_pendiente =
      (((db.facturas.filter (fun f => f.usuario_id == u)).filter
        (fun f => f.estado == EstadoFactura.PENDIENTE)).map
          (fun f => f.monto)).sum ∧
    (FacturaController.get_user_statistics db u).monto_total_pagado =
      (((db.facturas.filter (fun f => f.usuario_id == u)).filter
        (fun f => f.estado == EstadoFactura.PAGADO)).map
          (fun f => f.monto)).sum ∧
    (FacturaController.get_user_statistics db u).total_facturas =
      (FacturaController.get_user_statistics db u).facturas_pendientes +
      (FacturaController.get_user_statistics db u).facturas_pagadas +
      ((db.facturas.filter (fun f => f.usuario_id == u)).filter
        (fun f => f.estado == EstadoFactura.VENCIDO)).length +
      ((db.facturas.filter (fun f => f.usuario_id == u)).filter
        (fun f => f.estado == EstadoFactura.CANCELADO)).length := by
  have hperm := list_facturas_perm db u
  have h1 : (FacturaController.get_user_statistics db u).total_facturas =
      (db.facturas.filter (fun f => f.usuario_id == u)).length :=
    hperm.length_eq
  have h2 : (FacturaController.get_user_statistics db u).facturas_pendientes =
      ((db.facturas.filter (fun f => f.usuario_id == u)).filter
        (fun f => f.estado == EstadoFactura.PENDIENTE)).length :=
    (hperm.filter _).length_eq
  have h3 : (FacturaController.get_user_statistics db u).facturas_pagadas =
      ((db.facturas.filter (fun f => f.usuario_id == u)).filter
        (fun f => f.estado == EstadoFactura.PAGADO)).length :=
    (hperm.filter _).length_eq
  have h4 : (FacturaController.get_user_statistics db u).monto_total_pendiente =
      (((db.facturas.filter (fun f => f.usuario_id == u)).filter
        (fun f => f.estado == EstadoFactura.PENDIENTE)).map
          (fun f => f.monto)).sum :=
    ((hperm.filter _).map _).sum_eq
  have h5 : (FacturaController.get_user_statistics db u).monto_total_pagado =
      (((db.facturas.filter (fun f => f.usuario_id == u)).filter
        (fun f => f.estado == EstadoFactura.PAGADO)).map
          (fun f => f.monto)).sum :=
    ((hperm.filter _).map _).sum_eq
  refine ⟨h1, h2, h3, h4, h5, ?_⟩
  rw [h1, h2, h3, length_partition_estado
    (db.facturas.filter (fun f => f.usuario_id == u))]

/-- `SUM(...) or 0` equals the plain sum of the column: `SUM` is `NULL` only
over zero rows, where the sum is `0` anyway, and the falsy-zero branch of
`or` also returns `0`. -/
theorem orZero_sqlSum (l : List Rat) : crud.orZero (crud.sqlSum l) = l.sum := by
  unfold crud.sqlSum crud.orZero
  by_cases h : l.isEmpty
  · rw [if_pos h, List.isEmpty_iff.mp h]
    rfl
  · rw [if_neg h]
    simp only
    split
    next h0 => exact h0.symm
    next => rfl

/-- C7: the store-level statistics agree with the controller-level ones —
the three counts are equal, and each monetary sum of the store-level version
is the rendering (Python `str`) of exactly the number the controller
computes. -/
theorem C7_statistics_refinement (render : Rat → String) (db : DB) (u : Nat) :
    (crud.get_user_statistics render db u).total_facturas =
      (FacturaController.get_user_statistics db u).total_facturas ∧
    (crud.get_user_statistics render db u).facturas_pendientes =
      (FacturaController.get_user_statistics db u).facturas_pendientes ∧
    (crud.get_user_statistics render db u).facturas_pagadas =
      (FacturaController.get_user_statistics db u).facturas_pagadas ∧
    (crud.get_user_statistics render db u).monto_total_pendiente =
      render
        ((FacturaController.get_user_statistics db u).monto_total_pendiente) ∧
    (crud.get_user_statistics render db u).monto_total_pagado =
      render ((FacturaController.get_user_statistics db u).monto_total_pagado) := by
  have hperm := list_facturas_perm db u
  refine ⟨(hperm.length_eq).symm, ((hperm.filter _).length_eq).symm,
    ((hperm.filter _).length_eq).symm, ?_, ?_⟩
  · show render (crud.orZero (crud.sqlSum _)) = render _
    rw [orZero_sqlSum]
    exact congrArg render (((hperm.filter _).map _).sum_eq).symm
  · show render (crud.orZero (crud.sqlSum _)) = render _
    rw [orZero_sqlSum]
    exact congrArg render (((hperm.filter _).map _).sum_eq).symm

/-- A successful controller-level invoice fetch means the row is in the
store under that id and the requester owns it. -/
theorem controller_get_ok {db : DB} {i u : Nat} {f : Factura}
    (h : FacturaController.get_factura_by_id db i u = Except.ok f) :
    crud.get_factura_by_id db i = some f ∧ f.usuario_id = u := by
  unfold FacturaController.get_factura_by_id at h
  split at h
  · exact Except.noConfusion h
  · rename_i g hg
    split at h
    · exact Except.noConfusion h
    · rename_i ho
      have hgf : g = f := by injection h
      exact ⟨hgf ▸ hg, hgf ▸ not_ne_iff.mp ho⟩

/-- `crud.pay_factura` on an existing `PENDIENTE` row: the returned invoice
and the committed store, in closed form. -/
theorem pay_factura_pending_eq {db : DB} {i now : Nat} {f : Factura}
    (hf : crud.get_factura_by_id db i = some f)
    (hpend : f.estado = EstadoFactura.PENDIENTE) :
    crud.pay_factura db i now =
      (some { f with estado := EstadoFactura.PAGADO, updated_at := some now },
        { db with facturas := db.facturas.map (fun g =>
            if g.id == i then
              { f with estado := EstadoFactura.PAGADO, updated_at := some now }
            else g) }) := by
  unfold crud.pay_factura
  rw [hf]
  simp [hpend]

/-- C3: across every operation of the system, any invoice present in the
resulting store is an untouched pre-existing row, or a pre-existing
`PENDIENTE` row that the payment operation moved to `PAGADO`, or a freshly
inserted row — which is always `PENDIENTE`.  In particular no operation ever
sets an existing invoice to `VENCIDO` or `CANCELADO`, and no operation
changes the status of a `PAGADO`, `VENCIDO` or `CANCELADO` invoice. -/
theorem C3_only_pending_to_paid (op : Op) (db : DB) (f2 : Factura)
    (h : f2 ∈ (applyOp op db).facturas) :
    f2 ∈ db.facturas ∨
    (∃ i u now, op = Op.pagarFactura i u now ∧
      ∃ f, f ∈ db.facturas ∧ f.estado = EstadoFactura.PENDIENTE ∧
        f2 = { f with estado := EstadoFactura.PAGADO,
                      updated_at := some now }) ∨
    (f2.estado = EstadoFactura.PENDIENTE ∧ f2 ∉ db.facturas) := by
  cases op with
  | register hash username password email nombre now =>
    left
    simp only [applyOp] at h
    unfold AuthController.register_user at h
    cases hg : crud.get_user db username with
    | some v => rw [hg] at h; exact h
    | none =>
      rw [hg] at h
      simpa [crud.create_user] using h
  | loginOp verify mkToken username password => exact Or.inl h
  | listFacturas userId => exact Or.inl h
  | listPendientes userId => exact Or.inl h
  | listPagadas userId => exact Or.inl h
  | estadisticas userId => exact Or.inl h
  | crearFactura userId monto numero descripcion emision vencimiento now =>
    simp only [applyOp] at h
    unfold main.crear_factura at h
    simp only [List.mem_append] at h
    rcases h with hin | hnew
    · exact Or.inl hin
    · have hf2 : f2.estado = EstadoFactura.PENDIENTE := by
        have hx : f2 = _ := List.mem_singleton.mp hnew
        rw [hx]
      by_cases hmem : f2 ∈ db.facturas
      · exact Or.inl hmem
      · exact Or.inr (Or.inr ⟨hf2, hmem⟩)
  | pagarFactura i u now =>
    simp only [applyOp] at h
    cases hc : FacturaController.get_factura_by_id db i u with
    | error e =>
      have hdb : (FacturaController.process_payment db db i u now).2 = db := by
        unfold FacturaController.process_payment
        rw [hc]
      rw [hdb] at h
      exact Or.inl h
    | ok fac =>
      by_cases hpend : fac.estado = EstadoFactura.PENDIENTE
      · obtain ⟨hcg, _⟩ := controller_get_ok hc
        have hdb : (FacturaController.process_payment db db i u now).2 =
            { db with facturas := db.facturas.map (fun g =>
                if g.id == i then
                  { fac with estado := EstadoFactura.PAGADO,
                             updated_at := some now }
                else g) } := by
          unfold FacturaController.process_payment
          rw [hc]
          simp only [hpend, ne_eq, not_true_eq_false, if_false,
            pay_factura_pending_eq hcg hpend]
        rw [hdb] at h
        simp only [List.mem_map] at h
        obtain ⟨g, hg, hup⟩ := h
        by_cases hgid : (g.id == i) = true
        · right; left
          refine ⟨i, u, now, rfl, fac, ?_, hpend, ?_⟩
          · have hfind : db.facturas.find? (fun f => f.id == i) = some fac :=
              hcg
            exact List.mem_of_find?_eq_some hfind
          · rw [← hup, if_pos hgid]
        · left
          rw [← hup, if_neg hgid]
          exact hg
      · have hdb : (FacturaController.process_payment db db i u now).2 = db := by
          unfold FacturaController.process_payment
          rw [hc]
          by_cases hpag : fac.estado = EstadoFactura.PAGADO
          · simp [hpend, hpag]
          · simp [hpend, hpag]
        rw [hdb] at h
        exact Or.inl h

/-- Witness for C3: paying invoice 1 of `dbSample` leaves the paid row in
the store; the theorem classifies it as the `PENDIENTE → PAGADO` transition
of the payment operation. -/
theorem C3_only_pending_to_paid_witness :
    facPaid7 ∈ dbSample.facturas ∨
    (∃ i u now, Op.pagarFactura 1 1 7 = Op.pagarFactura i u now ∧
      ∃ f, f ∈ dbSample.facturas ∧ f.estado = EstadoFactura.PENDIENTE ∧
        facPaid7 = { f with estado := EstadoFactura.PAGADO,
                            updated_at := some now }) ∨
    (facPaid7.estado = EstadoFactura.PENDIENTE ∧
      facPaid7 ∉ dbSample.facturas) :=
  C3_only_pending_to_paid (Op.pagarFactura 1 1 7) dbSample facPaid7 (by decide)
